import Mathlib

set_option maxHeartbeats 1000000

/-!
Shallow embedding of the Comet-Azure moderation webhook (src/main.py).

The handler `handle_webhook` parses a conversation window, routes the newest
message by kind (image / file / text), downloads and extracts content via
external oracles, classifies it through an Azure content-safety oracle, and
returns an allow/block verdict.  External effects (HTTP download, Azure
classification, PDF/DOCX text extraction) are modelled as pure oracle
functions packaged in `Env`; the computation additionally records a trace of
the external calls it makes, so that "the backend was never invoked" is a
statement about the trace.  Exceptions are modelled with `Except`: the
top-level `try/except` of the handler is the final `match` in
`handle_webhook`.
-/

namespace CometModeration

/-- JSON-like values as parsed by the web framework from the request body.
Numbers are modelled as integers (all numbers relevant to the handler are). -/
inductive Json : Type where
  | null : Json
  | bool : Bool → Json
  | num : Int → Json
  | str : String → Json
  | arr : List Json → Json
  | obj : List (String × Json) → Json

/-- Python `j == s` for a string literal `s`: only equal strings compare
equal; values of any other type are never equal to a string. -/
def jEqStr (j : Json) (s : String) : Bool :=
  match j with
  | .str t => t = s
  | _ => false

/-- Python exceptions are modelled by their class name. -/
abbrev PyErr := String

/-- First-match association lookup, modelling `dict.get` / `in` on a JSON
object (JSON object keys are unique, so first-match is exact). -/
def jlookup (k : String) : List (String × Json) → Option Json
  | [] => none
  | (k', v) :: rest => if k = k' then some v else jlookup k rest

/-- Python truthiness (`if x:`) of a JSON value. -/
def jTruthy : Json → Bool
  | .null => false
  | .bool b => b
  | .num n => n != 0
  | .str s => s != ""
  | .arr l => !l.isEmpty
  | .obj l => !l.isEmpty

/-- `isinstance(x, dict)`. -/
def isDict : Json → Bool
  | .obj _ => true
  | _ => false

/-- `next(iter(x))`: first key of a dict, first character of a string,
first element of a list; `TypeError` on non-iterables, `StopIteration`
when empty. -/
def pyFirstIter : Json → Except PyErr Json
  | .obj ((k, _) :: _) => .ok (.str k)
  | .obj [] => .error "StopIteration"
  | .str s =>
    match s.toList with
    | c :: _ => .ok (.str (String.mk [c]))
    | [] => .error "StopIteration"
  | .arr (x :: _) => .ok x
  | .arr [] => .error "StopIteration"
  | _ => .error "TypeError"

/-- Python subscription `x[k]`, covering the shapes the handler can reach:
dict lookup by string key (`KeyError` when missing — JSON object keys are
all strings, so any non-string key misses), list/string indexing with
Python's negative-index convention. -/
def pySubscript : Json → Json → Except PyErr Json
  | .obj kvs, .str k =>
    match jlookup k kvs with
    | some v => .ok v
    | none => .error "KeyError"
  | .obj _, _ => .error "KeyError"
  | .arr l, .num i =>
    let j : Int := if i < 0 then (l.length : Int) + i else i
    if j < 0 then .error "IndexError"
    else
      match l.get? j.toNat with
      | some x => .ok x
      | none => .error "IndexError"
  | .arr _, _ => .error "TypeError"
  | .str s, .num i =>
    let j : Int := if i < 0 then (s.length : Int) + i else i
    if j < 0 then .error "IndexError"
    else
      match s.toList.get? j.toNat with
      | some c => .ok (.str (String.mk [c]))
      | none => .error "IndexError"
  | .str _, _ => .error "TypeError"
  | _, _ => .error "TypeError"

/-- `.get(...)` is only available on dicts; anything else raises
`AttributeError`. -/
def asObj : Json → Except PyErr (List (String × Json))
  | .obj kvs => .ok kvs
  | _ => .error "AttributeError"

/-- Iterating the context list in the text path.  A non-list truthy value
always ends in an exception before any external call is made (iterating a
string or dict yields strings, whose `.items()` raises `AttributeError`;
numbers and booleans are not iterable), so those cases are collapsed to the
exception they end in. -/
def asEntryList : Json → Except PyErr (List Json)
  | .arr l => .ok l
  | .str _ => .error "AttributeError"
  | .obj _ => .error "AttributeError"
  | _ => .error "TypeError"

/-- `requests.get(u)` demands a string URL; any other value raises before a
network request is attempted. -/
def asReqUrl : Json → Except PyErr String
  | .str s => .ok s
  | _ => .error "InvalidSchema"

/-- ASCII lowercasing of one character (`str.lower()`; the extensions the
handler dispatches on are ASCII). -/
def pyLowerChar (c : Char) : Char :=
  if 'A' ≤ c ∧ c ≤ 'Z' then Char.ofNat (c.toNat + 32) else c

/-- `.lower()` on the extension field; raises on a non-string. -/
def pyLower : Json → Except PyErr String
  | .str s => .ok (String.mk (s.toList.map pyLowerChar))
  | _ => .error "AttributeError"

/-- The whitespace characters stripped by Python's `str.strip()`
(ASCII range; the handler only ever tests emptiness after stripping). -/
def isPySpace (c : Char) : Bool :=
  c = ' ' || c = '\t' || c = '\n' || c = '\r' || c = Char.ofNat 11 || c = Char.ofNat 12

/-- Truthiness of `s.strip()`: true iff `s` has a non-whitespace character. -/
def pyStripTruthy (s : String) : Bool :=
  s.toList.any (fun c => !(isPySpace c))

/-- Python slicing `s[:n]`: the first `min n (length s)` characters. -/
def pySliceTo (n : Nat) (s : String) : String :=
  String.mk (s.toList.take n)

/-- Does `pat` occur at the head of `l`? -/
def headMatches : List Char → List Char → Bool
  | [], _ => true
  | _ :: _, [] => false
  | a :: as, b :: bs => a = b && headMatches as bs

/-- Substring occurrence on character lists. -/
def hasSub (needle : List Char) : List Char → Bool
  | [] => needle.isEmpty
  | c :: rest => headMatches needle (c :: rest) || hasSub needle rest

/-- Python's `needle in haystack` on strings (substring test). -/
def strIn (needle haystack : String) : Bool :=
  hasSub needle.toList haystack.toList

mutual
/-- Python `repr` of a JSON value (quote escaping inside strings is not
modelled; the handler only ever formats strings and scalars). -/
def pyRepr : Json → String
  | .str s => "'" ++ s ++ "'"
  | .num n => toString n
  | .bool true => "True"
  | .bool false => "False"
  | .null => "None"
  | .arr l => "[" ++ pyReprSeq l ++ "]"
  | .obj kvs => "\x7b" ++ pyReprPairs kvs ++ "\x7d"

/-- Comma-joined `repr`s of list elements. -/
def pyReprSeq : List Json → String
  | [] => ""
  | [x] => pyRepr x
  | x :: y :: rest => pyRepr x ++ ", " ++ pyReprSeq (y :: rest)

/-- Comma-joined `repr`s of dict items. -/
def pyReprPairs : List (String × Json) → String
  | [] => ""
  | [(k, v)] => "'" ++ k ++ "': " ++ pyRepr v
  | (k, v) :: p :: rest => "'" ++ k ++ "': " ++ pyRepr v ++ ", " ++ pyReprPairs (p :: rest)
end

/-- Python `str(x)`, as used by the f-string `f"{current_text}. "`. -/
def pyStr : Json → String
  | .str s => s
  | j => pyRepr j

/-- One `(category, severity)` item of an Azure `categories_analysis` list. -/
structure CategoryAnalysis where
  category : String
  severity : Nat
deriving DecidableEq

/-- An HTTP response from `requests.get`. -/
structure HttpResponse where
  status_code : Nat
  content : List Nat
  text : String
deriving DecidableEq

/-- Azure service errors (`HttpResponseError`), modelled by their message. -/
abbrev AzureErr := String

/-- The external world of one request: HTTP fetches, the Azure
content-safety client, and the PDF/DOCX extraction libraries.  `pdfRead`
returns, per page, the result of that page's `extract_text()` call (the
reader itself may also fail); `docxRead` returns the paragraph texts. -/
structure Env where
  httpGet : String → Except PyErr HttpResponse
  analyze_image : List Nat → Except AzureErr (List CategoryAnalysis)
  analyze_text : String → Except AzureErr (List CategoryAnalysis)
  pdfRead : List Nat → Except PyErr (List (Except PyErr String))
  docxRead : List Nat → Except PyErr (List String)

/-- Trace of external calls made while handling one request. -/
inductive Call : Type where
  | httpGet : String → Call
  | analyzeImage : List Nat → Call
  | analyzeText : String → Call
  | pdfRead : List Nat → Call
  | docxRead : List Nat → Call
deriving DecidableEq

/-- Computation of the handler body: either a value or a raised Python
exception, together with the trace of external calls made. -/
abbrev M (α : Type) : Type := Except PyErr α × List Call

namespace M

def pure {α : Type} (a : α) : M α := (.ok a, [])

def bind {α β : Type} (x : M α) (f : α → M β) : M β :=
  match x with
  | (.ok a, l) => ((f a).1, l ++ (f a).2)
  | (.error e, l) => (.error e, l)

end M

instance : Monad M where
  pure := M.pure
  bind := M.bind

/-- Raise a Python exception. -/
def raise {α : Type} (e : PyErr) : M α := (.error e, [])

/-- A pure step that may raise (no external call). -/
def liftE {α : Type} (x : Except PyErr α) : M α := (x, [])

/-- `requests.get(url)` — traced; transport failures raise. -/
def callHttpGet (env : Env) (url : String) : M HttpResponse :=
  (env.httpGet url, [.httpGet url])

/-- `client.analyze_image(...)` — traced; `HttpResponseError` is returned as
a value because every call site catches it immediately. -/
def callAnalyzeImage (env : Env) (c : List Nat) :
    M (Except AzureErr (List CategoryAnalysis)) :=
  (.ok (env.analyze_image c), [.analyzeImage c])

/-- `client.analyze_text(...)` — traced; `HttpResponseError` is returned as
a value because every call site catches it immediately. -/
def callAnalyzeText (env : Env) (t : String) :
    M (Except AzureErr (List CategoryAnalysis)) :=
  (.ok (env.analyze_text t), [.analyzeText t])

/-- `PdfReader(...)` plus its page list — traced; the surrounding `try`
catches any failure, so it is returned as a value. -/
def callPdfRead (env : Env) (c : List Nat) :
    M (Except PyErr (List (Except PyErr String))) :=
  (.ok (env.pdfRead c), [.pdfRead c])

/-- `Document(...)` plus its paragraph list — traced; the surrounding `try`
catches any failure, so it is returned as a value. -/
def callDocxRead (env : Env) (c : List Nat) :
    M (Except PyErr (List String)) :=
  (.ok (env.docxRead c), [.docxRead c])

/-- The webhook's JSON response.  The handler emits three shapes: the
minimal `\x7b"isMatchingCondition": False\x7d` (empty window / top-level
catch) and the two full verdicts.  Confidences 0.95 and 0.98 are modelled
as hundredths (95, 98) to stay in exact arithmetic. -/
structure Response where
  isMatchingCondition : Bool
  confidence : Option Nat
  reason : Option String
deriving DecidableEq

/-- The minimal fail-open body returned on an empty window and by the
top-level exception handler. -/
def minimalFalse : Response := ⟨false, none, none⟩

/-- The full safe verdict (line 180 of src/main.py). -/
def safeFullResponse : Response := ⟨false, some 98, some "Safe"⟩

/-- The full blocked verdict (line 173 of src/main.py). -/
def blockedResponse (reason : String) : Response := ⟨true, some 95, some reason⟩

/-- Final `if violation_found: ... return ...` of the handler. -/
def verdictOf : Bool × String → Response
  | (true, reason) => blockedResponse reason
  | (false, _) => safeFullResponse

/-- `analyze_severity` (src/main.py lines 34-41): first category whose
severity reaches `block_level` wins; the Python default `block_level=2` is
never used (all three call sites pass it explicitly). -/
def analyze_severity : List CategoryAnalysis → Nat → Bool × String
  | [], _ => (false, "")
  | item :: rest, block_level =>
    if block_level ≤ item.severity then
      (true, item.category ++ " (Level " ++ toString item.severity ++ ")")
    else analyze_severity rest block_level

/-- `msg_type` computation (src/main.py lines 62-64): top-level `type` of a
dict payload, defaulting to `'text'`; non-dict payloads are text. -/
def msgTypeOf : Json → Json
  | .obj m => (jlookup "type" m).getD (.str "text")
  | _ => .str "text"

/-- `message_object.get('data', \x7b\x7d)` for a dict payload. -/
def dataOf : Json → Json
  | .obj m => (jlookup "data" m).getD (.obj [])
  | _ => .obj []

/-- The PDF page loop (src/main.py lines 117-118): accumulate
`extract_text() + " "` per page; a raising page aborts the loop and the
enclosing `except` keeps what was accumulated so far. -/
def pdfLoop : List (Except PyErr String) → String → String
  | [], acc => acc
  | .ok t :: rest, acc => pdfLoop rest (acc ++ t ++ " ")
  | .error _ :: _, acc => acc

/-- Text taken from a PDF: at most the first 3 pages (`reader.pages[:3]`). -/
def extractPdfText (pages : List (Except PyErr String)) : String :=
  pdfLoop (pages.take 3) ""

/-- The DOCX paragraph loop (src/main.py lines 124-125). -/
def docLoop : List String → String → String
  | [], acc => acc
  | p :: rest, acc => docLoop rest (acc ++ p ++ " ")

/-- Inner loop of the text path (src/main.py lines 148-153): one entry's
`(key, value)` items.  A bare-string value contributes `value + ". "`; a
dict value with a `data` key contributes `str(data.get('text','')) + ". "`
when `data` is a dict and raises `AttributeError` when it is not; anything
else is skipped. -/
def pairLoop : List (String × Json) → String → Except PyErr String
  | [], acc => .ok acc
  | (_, v) :: rest, acc =>
    match v with
    | .str s => pairLoop rest (acc ++ s ++ ". ")
    | .obj vkvs =>
      match jlookup "data" vkvs with
      | some (.obj dk) =>
        pairLoop rest (acc ++ pyStr ((jlookup "text" dk).getD (.str "")) ++ ". ")
      | some _ => .error "AttributeError"
      | none => pairLoop rest acc
    | _ => pairLoop rest acc

/-- Outer loop of the text path (src/main.py line 147): every entry must be
a dict (`entry.items()`), iterated in order. -/
def combinedLoop : List Json → String → Except PyErr String
  | [], acc => .ok acc
  | e :: rest, acc =>
    match e with
    | .obj ekvs =>
      match pairLoop ekvs acc with
      | .ok acc' => combinedLoop rest acc'
      | .error err => .error err
    | _ => .error "AttributeError"

/-- Path A (src/main.py lines 72-94): image moderation. -/
def imagePath (env : Env) (message_object : Json) : M (Bool × String) := do
  let dkvs ← liftE (asObj (dataOf message_object))
  match jlookup "url" dkvs with
  | some u =>
    if jTruthy u then do
      let us ← liftE (asReqUrl u)
      let response ← callHttpGet env us
      if response.status_code = 200 then do
        match ← callAnalyzeImage env response.content with
        | .ok result => M.pure (analyze_severity result 2)
        | .error _ => M.pure (false, "")
      else M.pure (false, "")
    else M.pure (false, "")
  | none => M.pure (false, "")

/-- Text extraction of the file path (src/main.py lines 112-129): dispatch
on the lowercased extension; PDF keeps at most 3 pages, extraction failures
are caught and keep what was accumulated ( `""` when nothing was). -/
def extractFileStage (env : Env) (response : HttpResponse) (file_ext : String) :
    M String := do
  if strIn "pdf" file_ext then do
    match ← callPdfRead env response.content with
    | .ok pages => M.pure (pdfLoop (pages.take 3) "")
    | .error _ => M.pure ""
  else if strIn "doc" file_ext then do
    match ← callDocxRead env response.content with
    | .ok paras => M.pure (docLoop paras "")
    | .error _ => M.pure ""
  else if strIn "txt" file_ext then M.pure response.text
  else M.pure ""

/-- Classification of extracted file text (src/main.py lines 131-139):
non-blank text is truncated, submitted, and judged at threshold 2;
`HttpResponseError` is caught. -/
def classifyFileText (env : Env) (extracted_text : String) : M (Bool × String) := do
  if pyStripTruthy extracted_text then do
    match ← callAnalyzeText env (pySliceTo 1000 extracted_text) with
    | .ok result => M.pure (analyze_severity result 2)
    | .error _ => M.pure (false, "")
  else M.pure (false, "")

/-- Path B (src/main.py lines 99-139): file moderation (PDF / DOCX / TXT).
Note the extension is lowercased before the URL check, and the severity
threshold passed for extracted file text is 2. -/
def filePath (env : Env) (message_object : Json) : M (Bool × String) := do
  let dkvs ← liftE (asObj (dataOf message_object))
  let file_url := jlookup "url" dkvs
  let file_ext ← liftE (pyLower ((jlookup "extension" dkvs).getD (.str "")))
  match file_url with
  | some u =>
    if jTruthy u then do
      let us ← liftE (asReqUrl u)
      let response ← callHttpGet env us
      if response.status_code = 200 then do
        let extracted_text ← extractFileStage env response file_ext
        classifyFileText env extracted_text
      else M.pure (false, "")
    else M.pure (false, "")
  | none => M.pure (false, "")

/-- Classification of the combined window text (src/main.py lines 155-163):
non-blank text is truncated, submitted, and judged at threshold 4;
`HttpResponseError` is caught. -/
def classifyCombinedText (env : Env) (combined_text : String) : M (Bool × String) := do
  if pyStripTruthy combined_text then do
    match ← callAnalyzeText env (pySliceTo 1000 combined_text) with
    | .ok result => M.pure (analyze_severity result 4)
    | .error _ => M.pure (false, "")
  else M.pure (false, "")

/-- Path C (src/main.py lines 144-163): text moderation over the whole
window, threshold 4. -/
def textPath (env : Env) (context_list : Json) : M (Bool × String) := do
  let entries ← liftE (asEntryList context_list)
  let combined_text ← liftE (combinedLoop entries "")
  classifyCombinedText env combined_text

/-- Body of the `try` block of `handle_webhook` (src/main.py lines 50-184). -/
def webhookBody (env : Env) (payload : Json) : M Response := do
  let pkvs ← liftE (asObj payload)
  let context_list : Json := (jlookup "contextMessages" pkvs).getD (.arr [])
  if jTruthy context_list then do
    let last_entry ← liftE (pySubscript context_list (.num (-1)))
    let sender_uid ← liftE (pyFirstIter last_entry)
    let message_object ← liftE (pySubscript last_entry sender_uid)
    let msg_type := msgTypeOf message_object
    let vr ←
      if jEqStr msg_type "image" && isDict message_object then
        imagePath env message_object
      else if jEqStr msg_type "file" && isDict message_object then
        filePath env message_object
      else textPath env context_list
    M.pure (verdictOf vr)
  else M.pure minimalFalse

/-- The whole endpoint (src/main.py lines 43-188): the body wrapped in the
top-level `try/except` that converts any exception to the minimal
fail-open body. -/
def handle_webhook (env : Env) (payload : Json) : Response :=
  match (webhookBody env payload).1 with
  | .ok r => r
  | .error _ => minimalFalse

/-- The external calls made while handling one request. -/
def webhookCalls (env : Env) (payload : Json) : List Call :=
  (webhookBody env payload).2

/-! ### Specification-side formulations and concrete test fixtures -/

/-- Concatenation of a list of strings, in order. -/
def concatAll : List String → String
  | [] => ""
  | s :: rest => s ++ concatAll rest

/-- Contribution of one `(key, value)` item to the combined text, stated
per item: a bare string contributes itself plus `". "`; a dict with a
`data` key contributes `str(data.get('text','')) + ". "` whatever its
`type` is, and raises when `data` is not a dict; everything else
contributes nothing. -/
def pairContrib (v : Json) : Except PyErr (Option String) :=
  match v with
  | .str s => .ok (some (s ++ ". "))
  | .obj vkvs =>
    match jlookup "data" vkvs with
    | some (.obj dk) => .ok (some (pyStr ((jlookup "text" dk).getD (.str "")) ++ ". "))
    | some _ => .error "AttributeError"
    | none => .ok none
  | _ => .ok none

/-- The kept contributions of one entry's items, in order. -/
def pairContribList : List (String × Json) → Except PyErr (List String)
  | [] => .ok []
  | (_, v) :: rest =>
    match pairContrib v with
    | .ok (some s) => (pairContribList rest).map (fun l => s :: l)
    | .ok none => pairContribList rest
    | .error e => .error e

/-- Contribution of one window entry (a dict of sender → payload). -/
def entryContrib (e : Json) : Except PyErr String :=
  match e with
  | .obj ekvs => (pairContribList ekvs).map concatAll
  | _ => .error "AttributeError"

/-- Per-entry contributions of the whole window, in order. -/
def combinedSpecList : List Json → Except PyErr (List String)
  | [] => .ok []
  | e :: rest =>
    match entryContrib e with
    | .ok s => (combinedSpecList rest).map (fun l => s :: l)
    | .error err => .error err

/-- The combined text as the concatenation of independent per-entry
contributions (the accumulator-free formulation of the text-path loop). -/
def combinedSpec (entries : List Json) : Except PyErr String :=
  (combinedSpecList entries).map concatAll

/-- An image-kind current-message entry with the given `data` dict. -/
def imgEntry (dkvs : List (String × Json)) : Json :=
  .obj [("u1", .obj [("type", .str "image"), ("data", .obj dkvs)])]

/-- A file-kind current-message entry with the given `data` dict. -/
def fileEntry (dkvs : List (String × Json)) : Json :=
  .obj [("u1", .obj [("type", .str "file"), ("data", .obj dkvs)])]

/-- The `extension` field, when present, is a string (so that `.lower()`
does not raise; the code lowercases it before checking the URL). -/
def extOk (dkvs : List (String × Json)) : Prop :=
  jlookup "extension" dkvs = none ∨ ∃ s, jlookup "extension" dkvs = some (.str s)

/-- An environment whose downloads always succeed, whose extractors return
fixed non-blank text, and whose classifier always reports `cats`. -/
def envConst (cats : List CategoryAnalysis) : Env :=
  ⟨fun _ => .ok ⟨200, [7], "filetext"⟩,
   fun _ => .ok cats,
   fun _ => .ok cats,
   fun _ => .ok [.ok "pdf words"],
   fun _ => .ok ["doc words"]⟩

/-- A request body whose `contextMessages` is the given entry list. -/
def mkWindow (entries : List Json) : Json :=
  .obj [("contextMessages", .arr entries)]

/-- A window ending in a bare-string text message. -/
def winText : Json := mkWindow [.obj [("u1", .str "hello")]]

/-- A window ending in an image message. -/
def winImage : Json :=
  mkWindow [.obj [("u1", .obj [("type", .str "image"),
    ("data", .obj [("url", .str "http://img")])])]]

/-- A window ending in a PDF file message. -/
def winPdf : Json :=
  mkWindow [.obj [("u1", .obj [("type", .str "file"),
    ("data", .obj [("url", .str "http://f"), ("extension", .str "pdf")])])]]

/-- A window with an image message in the history and a bare-string text
message as the current message. -/
def winMixed : Json :=
  mkWindow [.obj [("u1", .obj [("type", .str "image"),
      ("data", .obj [("url", .str "http://x")])])],
    .obj [("u2", .str "hi")]]

/-- A window whose current message carries its `type` only nested inside
`data` (`type` absent at top level). -/
def winNestedType : Json :=
  mkWindow [.obj [("u1", .obj [("data", .obj [("type", .str "image"),
    ("url", .str "http://img")])])]]

/-- A window whose current message has a bare-string `data` field. -/
def winStrData : Json :=
  mkWindow [.obj [("u1", .obj [("data", .str "raw")])]]

/-- A window whose current message is a dict with no `data` and an
unrecognized `type` (contributes nothing to the combined text). -/
def winSticker : Json :=
  mkWindow [.obj [("u1", .obj [("type", .str "sticker")])]]

/-- An environment whose every download comes back with HTTP status 404. -/
def env404 : Env :=
  ⟨fun _ => .ok ⟨404, [], ""⟩,
   fun _ => .ok [⟨"Hate", 7⟩],
   fun _ => .ok [⟨"Hate", 7⟩],
   fun _ => .ok [.ok "pdf words"],
   fun _ => .ok ["doc words"]⟩

/-- An environment whose PDF reader yields the given page results and whose
text classifier always reports a single `("Violence", 4)` category. -/
def envPdfOf (pages : List (Except PyErr String)) : Env :=
  ⟨fun _ => .ok ⟨200, [9], "t"⟩,
   fun _ => .ok [],
   fun _ => .ok [⟨"Violence", 4⟩],
   fun _ => .ok pages,
   fun _ => .ok []⟩

/-- An environment whose PDF reader raises on construction. -/
def envPdfReaderFail : Env :=
  ⟨fun _ => .ok ⟨200, [9], "t"⟩,
   fun _ => .ok [],
   fun _ => .ok [⟨"Violence", 4⟩],
   fun _ => .error "PdfReadError",
   fun _ => .ok []⟩

/-- An environment whose PDF reader extracts page 1, then fails on page 2,
and whose text classifier reports `("Violence", 7)`. -/
def envPdfPartial : Env :=
  ⟨fun _ => .ok ⟨200, [9], "t"⟩,
   fun _ => .ok [],
   fun _ => .ok [⟨"Violence", 7⟩],
   fun _ => .ok [.ok "A", .error "boom", .ok "C"],
   fun _ => .ok []⟩

/-- An environment whose classification backend always raises
`HttpResponseError`. -/
def envAzureDown : Env :=
  ⟨fun _ => .ok ⟨200, [9], "t"⟩,
   fun _ => .error "503",
   fun _ => .error "503",
   fun _ => .ok [.ok "pdf words"],
   fun _ => .ok ["doc words"]⟩

/-! ### Claims -/

theorem bind_eq {α β : Type} (x : M α) (f : α → M β) : x >>= f = M.bind x f := rfl

theorem pure_eq {α : Type} (a : α) : (pure a : M α) = M.pure a := rfl

/-- The calls of a bound computation come from its first or, when that
succeeds, its second stage. -/
theorem mem_bind_calls {α β : Type} (x : M α) (f : α → M β) (c : Call)
    (h : c ∈ (x >>= f).2) : c ∈ x.2 ∨ ∃ a, x.1 = .ok a ∧ c ∈ (f a).2 := by
  rcases x with ⟨r, l⟩
  cases r with
  | ok a =>
    rw [bind_eq] at h
    simp only [M.bind, List.mem_append] at h
    rcases h with h | h
    · exact Or.inl h
    · exact Or.inr ⟨a, rfl, h⟩
  | error e =>
    rw [bind_eq] at h
    simp only [M.bind] at h
    exact Or.inl h

/-- The newest message is the last entry of the window
(`context_list[-1]`). -/
theorem pySub_last (l : List Json) (e : Json) :
    pySubscript (.arr (l ++ [e])) (.num (-1)) = .ok e := by
  have hlen : ((((l ++ [e]).length : Nat) : Int) + (-1)).toNat = l.length := by
    simp [List.length_append]
  simp only [pySubscript]
  norm_num [hlen, List.getElem?_concat_length]

/-- C1: for every classification result and every threshold, the decision
scans the categories in native order and blocks on the first category whose
severity is at least the threshold, with reason
`"<category> (Level <severity>)"` built from that first qualifying category;
if no category qualifies, the result is safe with an empty reason. -/
theorem C1_first_qualifying_category (cats : List CategoryAnalysis) (block_level : Nat) :
    analyze_severity cats block_level =
      match cats.find? (fun item => decide (block_level ≤ item.severity)) with
      | some item => (true, item.category ++ " (Level " ++ toString item.severity ++ ")")
      | none => (false, "") := by
  induction cats with
  | nil => rfl
  | cons item rest ih =>
    by_cases h : block_level ≤ item.severity
    · simp [analyze_severity, List.find?, h]
    · simp [analyze_severity, List.find?, h, ih]

/-- C2 counterexample: extracted file text is decided with threshold 2, not
4.  A PDF whose text classifies as `("Hate", 2)` is blocked by the code,
while the claimed threshold-4 policy would deem it safe. -/
theorem C2_file_threshold_two_counterexample :
    handle_webhook (envConst [⟨"Hate", 2⟩]) winPdf = blockedResponse "Hate (Level 2)"
    ∧ analyze_severity [⟨"Hate", 2⟩] 4 = (false, "") :=
  ⟨rfl, rfl⟩

/-- C2 amended: the severity threshold is kind-specific — image content is
decided with threshold 2, text content with threshold 4, but text extracted
from a file-kind message is decided with threshold 2 (unlike the text
policy). -/
theorem C2_kind_specific_thresholds (cats : List CategoryAnalysis) :
    handle_webhook (envConst cats) winImage = verdictOf (analyze_severity cats 2)
    ∧ handle_webhook (envConst cats) winPdf = verdictOf (analyze_severity cats 2)
    ∧ handle_webhook (envConst cats) winText = verdictOf (analyze_severity cats 4) :=
  ⟨rfl, rfl, rfl⟩

/-- C3: any exception raised while processing the payload is caught at the
top level and converted to the minimal fail-open body
`\x7b"isMatchingCondition": False\x7d`; the handler never propagates an
internal error — its response is always either that fail-open body or the
normally computed verdict. -/
theorem C3_top_level_fail_open (env : Env) (payload : Json) :
    (∀ e, (webhookBody env payload).1 = .error e → handle_webhook env payload = minimalFalse)
    ∧ (∀ r, (webhookBody env payload).1 = .ok r → handle_webhook env payload = r)
    ∧ (handle_webhook env payload = minimalFalse
        ∨ (webhookBody env payload).1 = .ok (handle_webhook env payload)) := by
  refine ⟨fun e h => ?_, fun r h => ?_, ?_⟩
  · simp [handle_webhook, h]
  · simp [handle_webhook, h]
  · cases h : (webhookBody env payload).1 with
    | ok r => exact Or.inr (by simp [handle_webhook, h])
    | error e => exact Or.inl (by simp [handle_webhook, h])

/-- C3 witness: a payload that is not even a JSON object raises inside the
body (`AttributeError` on `.get`) and the handler returns the minimal
fail-open body. -/
theorem C3_top_level_fail_open_witness :
    handle_webhook (envConst []) (.str "boom") = minimalFalse :=
  (C3_top_level_fail_open (envConst []) (.str "boom")).1 "AttributeError" rfl

/-- C4: a request whose `contextMessages` is absent or the empty list gets
the minimal `\x7b"isMatchingCondition": False\x7d` response and no external
call (no download, no extraction, no classification) is made. -/
theorem C4_empty_window_short_circuits (env : Env) (payload : Json)
    (kvs : List (String × Json)) (hp : payload = .obj kvs)
    (h : jlookup "contextMessages" kvs = none
        ∨ jlookup "contextMessages" kvs = some (.arr [])) :
    handle_webhook env payload = minimalFalse ∧ webhookCalls env payload = [] := by
  subst hp
  rcases h with h | h <;>
    simp [handle_webhook, webhookCalls, webhookBody, bind_eq, pure_eq, M.bind, M.pure,
      liftE, asObj, h, jTruthy, minimalFalse]

/-- C4 witness: the empty-list window at a concrete environment. -/
theorem C4_empty_window_short_circuits_witness :
    handle_webhook (envConst []) (.obj [("contextMessages", .arr [])]) = minimalFalse
    ∧ webhookCalls (envConst []) (.obj [("contextMessages", .arr [])]) = [] :=
  C4_empty_window_short_circuits (envConst []) _ _ rfl (Or.inr rfl)

/-- The inner text-path loop equals the concatenation of per-item
contributions appended to the accumulator. -/
theorem pairLoop_spec (ps : List (String × Json)) (acc : String) :
    pairLoop ps acc = (pairContribList ps).map (fun l => acc ++ concatAll l) := by
  induction ps generalizing acc with
  | nil => simp [pairLoop, pairContribList, Except.map, concatAll, String.append_empty]
  | cons kv rest ih =>
    rcases kv with ⟨k, v⟩
    cases v with
    | str s =>
      cases hp : pairContribList rest <;>
        simp [pairLoop, pairContribList, pairContrib, ih, hp, Except.map, concatAll,
          String.append_assoc]
    | obj vkvs =>
      cases hd : jlookup "data" vkvs with
      | none => simp [pairLoop, pairContribList, pairContrib, hd, ih]
      | some d =>
        cases d with
        | obj dk =>
          cases hp : pairContribList rest <;>
            simp [pairLoop, pairContribList, pairContrib, hd, hp, ih, Except.map,
              concatAll, String.append_assoc]
        | null => simp [pairLoop, pairContribList, pairContrib, hd, Except.map]
        | bool b => simp [pairLoop, pairContribList, pairContrib, hd, Except.map]
        | num n => simp [pairLoop, pairContribList, pairContrib, hd, Except.map]
        | str s => simp [pairLoop, pairContribList, pairContrib, hd, Except.map]
        | arr l => simp [pairLoop, pairContribList, pairContrib, hd, Except.map]
    | null => simp [pairLoop, pairContribList, pairContrib, ih]
    | bool b => simp [pairLoop, pairContribList, pairContrib, ih]
    | num n => simp [pairLoop, pairContribList, pairContrib, ih]
    | arr l => simp [pairLoop, pairContribList, pairContrib, ih]

/-- The outer text-path loop equals the concatenation of per-entry
contributions appended to the accumulator. -/
theorem combinedLoop_spec (es : List Json) (acc : String) :
    combinedLoop es acc = (combinedSpecList es).map (fun l => acc ++ concatAll l) := by
  induction es generalizing acc with
  | nil => simp [combinedLoop, combinedSpecList, Except.map, concatAll, String.append_empty]
  | cons e rest ih =>
    cases e with
    | obj ekvs =>
      cases hp : pairContribList ekvs with
      | error err =>
        simp [combinedLoop, combinedSpecList, entryContrib, pairLoop_spec, hp, Except.map]
      | ok l =>
        cases hr : combinedSpecList rest <;>
          simp [combinedLoop, combinedSpecList, entryContrib, pairLoop_spec, hp, hr, ih,
            Except.map, concatAll, String.append_assoc]
    | null => simp [combinedLoop, combinedSpecList, entryContrib, Except.map]
    | bool b => simp [combinedLoop, combinedSpecList, entryContrib, Except.map]
    | num n => simp [combinedLoop, combinedSpecList, entryContrib, Except.map]
    | str s => simp [combinedLoop, combinedSpecList, entryContrib, Except.map]
    | arr l => simp [combinedLoop, combinedSpecList, entryContrib, Except.map]

/-- C5 counterexample: an image payload in the window is not skipped by the
text path — it contributes `". "` (empty text plus separator) to the text
submitted for classification, so the submission is `". hi. "` rather than
the claimed `"hi. "`; and a structured payload whose `data` is a bare
string raises (fail-open) instead of contributing `data` itself. -/
theorem C5_image_not_skipped_counterexample :
    webhookCalls (envConst []) winMixed = [.analyzeText ". hi. "]
    ∧ (". hi. " : String) ≠ "hi. "
    ∧ handle_webhook (envConst []) winStrData = minimalFalse :=
  ⟨rfl, by decide, rfl⟩

/-- C5 amended: the combined text appends, per `(key, value)` item of every
window entry in order, `"<value>. "` for a bare-string payload, and
`str(data.get('text','')) + ". "` for any dict payload with a `data` key
regardless of its declared kind (so image and file payloads contribute
`". "` when their `data` has no `text` field); a dict payload without
`data`, or of any other shape, contributes nothing; a payload whose `data`
is not a dict aborts the request (fail-open).  When the combined text is
non-blank, it is submitted (truncated) to the text classifier. -/
theorem C5_text_assembly_characterization :
    (∀ entries : List Json, combinedLoop entries "" = combinedSpec entries)
    ∧ (∀ (env : Env) (entries : List Json) (s : String),
        combinedLoop entries "" = .ok s → pyStripTruthy s = true →
        (textPath env (.arr entries)).2 = [.analyzeText (pySliceTo 1000 s)]) := by
  constructor
  · intro entries
    rw [combinedLoop_spec, combinedSpec]
    cases combinedSpecList entries <;> simp [Except.map]
  · intro env entries s h hs
    simp only [textPath, classifyCombinedText, bind_eq, pure_eq, M.bind, M.pure, liftE,
      asEntryList, h, hs, callAnalyzeText]
    cases env.analyze_text (pySliceTo 1000 s) <;> simp [M.pure]

/-- C5 witness: the characterization at a singleton text window. -/
theorem C5_text_assembly_characterization_witness :
    combinedLoop [.obj [("u2", .str "hi")]] "" = combinedSpec [.obj [("u2", .str "hi")]]
    ∧ (textPath (envConst []) (.arr [.obj [("u2", .str "hi")]])).2 =
        [.analyzeText (pySliceTo 1000 "hi. ")] :=
  ⟨C5_text_assembly_characterization.1 _,
   C5_text_assembly_characterization.2 (envConst []) [.obj [("u2", .str "hi")]] "hi. " rfl rfl⟩

/-- C6 counterexample: a current message whose `type` sits only inside
`data` is treated as text — the nested `data.type` is never consulted.  The
handler takes the text path (the only external call is a text
classification of `". "`), not the image path. -/
theorem C6_nested_type_ignored_counterexample :
    msgTypeOf (.obj [("data", .obj [("type", .str "image"), ("url", .str "http://img")])]) =
      .str "text"
    ∧ jlookup "type" [("data", .obj [("type", .str "image"), ("url", .str "http://img")])] = none
    ∧ jlookup "type" [("type", .str "image"), ("url", .str "http://img")] = some (.str "image")
    ∧ webhookCalls (envConst []) winNestedType = [.analyzeText ". "]
    ∧ handle_webhook (envConst []) winNestedType = safeFullResponse :=
  ⟨rfl, rfl, rfl, rfl, rfl⟩

/-- C6 amended: the normalized kind is the payload's top-level `type` field
when present and defaults to text when absent — including when a nested
`data.type` is present, which is never consulted; a bare-string payload is
likewise text. -/
theorem C6_kind_from_top_level_type_only :
    (∀ (kvs : List (String × Json)) (t : Json),
        jlookup "type" kvs = some t → msgTypeOf (.obj kvs) = t)
    ∧ (∀ (kvs : List (String × Json)) (d : Json),
        jlookup "type" kvs = none → jlookup "data" kvs = some d →
        msgTypeOf (.obj kvs) = .str "text")
    ∧ (∀ s : String, msgTypeOf (.str s) = .str "text") := by
  refine ⟨fun kvs t h => ?_, fun kvs d h _ => ?_, fun s => rfl⟩
  · simp [msgTypeOf, h]
  · simp [msgTypeOf, h]

/-- C6 witness: the kind rules at concrete payloads. -/
theorem C6_kind_from_top_level_type_only_witness :
    msgTypeOf (.obj [("type", .str "file")]) = .str "file"
    ∧ msgTypeOf (.obj [("data", .obj [("type", .str "image")])]) = .str "text" :=
  ⟨C6_kind_from_top_level_type_only.1 _ _ rfl,
   C6_kind_from_top_level_type_only.2.1 _ (.obj [("type", .str "image")]) rfl rfl⟩

/-- Routing of the handler body: with a non-empty window, the body runs the
path selected by the newest message's kind and wraps its verdict. -/
theorem webhookBody_route (env : Env) (rest : List Json) (lastE sk mo : Json)
    (h1 : pyFirstIter lastE = .ok sk) (h2 : pySubscript lastE sk = .ok mo) :
    webhookBody env (mkWindow (rest ++ [lastE])) =
      M.bind
        (if jEqStr (msgTypeOf mo) "image" && isDict mo then imagePath env mo
         else if jEqStr (msgTypeOf mo) "file" && isDict mo then filePath env mo
         else textPath env (.arr (rest ++ [lastE])))
        (fun vr => M.pure (verdictOf vr)) := by
  have hne : ((rest ++ [lastE]).isEmpty) = false := by
    simp [List.isEmpty_iff]
  simp only [webhookBody, mkWindow, bind_eq, pure_eq, M.bind, M.pure, liftE, asObj,
    jlookup, jTruthy, hne, pySub_last, h1, h2, if_true, if_false, List.nil_append,
    Option.getD_some, Bool.not_false]
  by_cases c1 : (jEqStr (msgTypeOf mo) "image" && isDict mo) = true
  · simp [c1]
  · by_cases c2 : (jEqStr (msgTypeOf mo) "file" && isDict mo) = true <;> simp [c1, c2]

/-- C7: an image- or file-kind current message whose `data` has no `url`,
or whose download comes back with a non-2xx status, is treated as empty
content: no classification or extraction call is made for it, no error
reaches the caller, and the verdict is the full safe response. -/
theorem C7_missing_url_or_failed_download_safe (env : Env) (rest : List Json)
    (dkvs : List (String × Json)) (u : String) (resp : HttpResponse) :
    (jlookup "url" dkvs = none →
      handle_webhook env (mkWindow (rest ++ [imgEntry dkvs])) = safeFullResponse
      ∧ webhookCalls env (mkWindow (rest ++ [imgEntry dkvs])) = [])
    ∧ (jlookup "url" dkvs = some (.str u) → u ≠ "" →
        env.httpGet u = .ok resp → ¬(200 ≤ resp.status_code ∧ resp.status_code < 300) →
      handle_webhook env (mkWindow (rest ++ [imgEntry dkvs])) = safeFullResponse
      ∧ webhookCalls env (mkWindow (rest ++ [imgEntry dkvs])) = [.httpGet u])
    ∧ (jlookup "url" dkvs = none → extOk dkvs →
      handle_webhook env (mkWindow (rest ++ [fileEntry dkvs])) = safeFullResponse
      ∧ webhookCalls env (mkWindow (rest ++ [fileEntry dkvs])) = [])
    ∧ (jlookup "url" dkvs = some (.str u) → u ≠ "" → extOk dkvs →
        env.httpGet u = .ok resp → ¬(200 ≤ resp.status_code ∧ resp.status_code < 300) →
      handle_webhook env (mkWindow (rest ++ [fileEntry dkvs])) = safeFullResponse
      ∧ webhookCalls env (mkWindow (rest ++ [fileEntry dkvs])) = [.httpGet u]) := by
  refine ⟨fun h => ?_, fun h hu hg hs => ?_, fun h hx => ?_, fun h hu hx hg hs => ?_⟩
  · have hr := webhookBody_route env rest
      (.obj [("u1", .obj [("type", .str "image"), ("data", .obj dkvs)])]) (.str "u1")
      (.obj [("type", .str "image"), ("data", .obj dkvs)]) rfl rfl
    simp [handle_webhook, webhookCalls, hr, imagePath, dataOf, asObj, jlookup, h,
      msgTypeOf, jEqStr, isDict, bind_eq, pure_eq, M.bind, M.pure, liftE, verdictOf,
      imgEntry]
  · have hr := webhookBody_route env rest
      (.obj [("u1", .obj [("type", .str "image"), ("data", .obj dkvs)])]) (.str "u1")
      (.obj [("type", .str "image"), ("data", .obj dkvs)]) rfl rfl
    have hne : ¬ (resp.status_code = 200) := by omega
    simp [handle_webhook, webhookCalls, hr, imagePath, dataOf, asObj, jlookup, h,
      msgTypeOf, jEqStr, isDict, bind_eq, pure_eq, M.bind, M.pure, liftE, verdictOf,
      imgEntry, jTruthy, hu, asReqUrl, callHttpGet, hg, hne]
  · have hr := webhookBody_route env rest
      (.obj [("u1", .obj [("type", .str "file"), ("data", .obj dkvs)])]) (.str "u1")
      (.obj [("type", .str "file"), ("data", .obj dkvs)]) rfl rfl
    rcases hx with hx | ⟨s, hx⟩ <;>
      simp [handle_webhook, webhookCalls, hr, filePath, dataOf, asObj, jlookup, h, hx,
        msgTypeOf, jEqStr, isDict, bind_eq, pure_eq, M.bind, M.pure, liftE, verdictOf,
        fileEntry, pyLower]
  · have hr := webhookBody_route env rest
      (.obj [("u1", .obj [("type", .str "file"), ("data", .obj dkvs)])]) (.str "u1")
      (.obj [("type", .str "file"), ("data", .obj dkvs)]) rfl rfl
    have hne : ¬ (resp.status_code = 200) := by omega
    rcases hx with hx | ⟨s, hx⟩ <;>
      simp [handle_webhook, webhookCalls, hr, filePath, dataOf, asObj, jlookup, h, hx,
        msgTypeOf, jEqStr, isDict, bind_eq, pure_eq, M.bind, M.pure, liftE, verdictOf,
        fileEntry, pyLower, jTruthy, hu, asReqUrl, callHttpGet, hg, hne]

/-- C7 witness: missing URL and a 404 download, for both kinds. -/
theorem C7_missing_url_or_failed_download_safe_witness :
    (handle_webhook env404 (mkWindow [imgEntry []]) = safeFullResponse
      ∧ webhookCalls env404 (mkWindow [imgEntry []]) = [])
    ∧ (handle_webhook env404 (mkWindow [imgEntry [("url", .str "http://x")]]) = safeFullResponse
      ∧ webhookCalls env404 (mkWindow [imgEntry [("url", .str "http://x")]]) =
          [.httpGet "http://x"])
    ∧ (handle_webhook env404 (mkWindow [fileEntry []]) = safeFullResponse
      ∧ webhookCalls env404 (mkWindow [fileEntry []]) = [])
    ∧ (handle_webhook env404
          (mkWindow [fileEntry [("url", .str "http://x"), ("extension", .str "pdf")]]) =
        safeFullResponse
      ∧ webhookCalls env404
          (mkWindow [fileEntry [("url", .str "http://x"), ("extension", .str "pdf")]]) =
          [.httpGet "http://x"]) :=
  ⟨(C7_missing_url_or_failed_download_safe env404 [] [] "u" ⟨404, [], ""⟩).1 rfl,
   (C7_missing_url_or_failed_download_safe env404 [] [("url", .str "http://x")]
      "http://x" ⟨404, [], ""⟩).2.1 rfl (by decide) rfl (by decide),
   (C7_missing_url_or_failed_download_safe env404 [] [] "u" ⟨404, [], ""⟩).2.2.1 rfl
     (Or.inl rfl),
   (C7_missing_url_or_failed_download_safe env404 []
      [("url", .str "http://x"), ("extension", .str "pdf")] "http://x"
      ⟨404, [], ""⟩).2.2.2 rfl (by decide) (Or.inr ⟨"pdf", rfl⟩) rfl (by decide)⟩

/-- C9 counterexample: when page 2 of a PDF raises after page 1 was
extracted, the catch keeps the partial text `"A "` (not empty text), which
is then classified and can even block the message. -/
theorem C9_partial_pdf_text_counterexample :
    extractPdfText [.ok "A", .error "boom", .ok "C"] = "A "
    ∧ ("A " : String) ≠ ""
    ∧ webhookCalls envPdfPartial winPdf =
        [.httpGet "http://f", .pdfRead [9], .analyzeText "A "]
    ∧ handle_webhook envPdfPartial winPdf = blockedResponse "Violence (Level 7)" :=
  ⟨rfl, by decide, rfl, rfl⟩

/-- C9 amended: text is extracted from at most the first 3 pages of a
downloaded PDF; a failure during page extraction is caught per document and
keeps the text of the pages already extracted (so it is empty when the
reader or the first page fails, partial otherwise), and never propagates —
the request still completes with a normal verdict. -/
theorem C9_pdf_three_pages_and_caught_failures :
    (∀ (p₁ p₂ : List (Except PyErr String)), p₁.length = 3 →
        extractPdfText (p₁ ++ p₂) = extractPdfText p₁)
    ∧ (∀ (pre : List String) (e : PyErr) (post : List (Except PyErr String)) (acc : String),
        pdfLoop (pre.map .ok ++ .error e :: post) acc =
          acc ++ concatAll (pre.map (fun t => t ++ " ")))
    ∧ (∀ pages : List (Except PyErr String),
        handle_webhook (envPdfOf pages) winPdf =
          (if pyStripTruthy (extractPdfText pages) then blockedResponse "Violence (Level 4)"
           else safeFullResponse))
    ∧ handle_webhook envPdfReaderFail winPdf = safeFullResponse := by
  refine ⟨fun p₁ p₂ h => ?_, fun pre e post acc => ?_, fun pages => ?_, rfl⟩
  · have h3 : List.take 3 p₁ = p₁ := List.take_of_length_le (le_of_eq h)
    simp [extractPdfText, List.take_append_eq_append_take, h, h3]
  · induction pre generalizing acc with
    | nil => simp [pdfLoop, concatAll, String.append_empty]
    | cons t pre ih =>
      simp [pdfLoop, concatAll, ih, String.append_assoc]
  · simp only [extractPdfText]
    have h4 : ("Violence (Level " ++ toString (4 : Nat) ++ ")" : String) =
        "Violence (Level 4)" := by decide
    by_cases hb : pyStripTruthy (pdfLoop (List.take 3 pages) "") = true <;>
      simp [h4, handle_webhook, webhookBody, winPdf, mkWindow, bind_eq, pure_eq, M.bind,
        M.pure, liftE, asObj, jlookup, jTruthy, pySubscript, pyFirstIter, msgTypeOf,
        jEqStr, isDict, filePath, extractFileStage, classifyFileText, dataOf, asReqUrl,
        pyLower, callHttpGet, callPdfRead, callAnalyzeText, envPdfOf, strIn, hasSub,
        headMatches, hb, pySliceTo, analyze_severity, verdictOf, pyLowerChar]

/-- C9 witness: a fourth page is ignored. -/
theorem C9_pdf_three_pages_and_caught_failures_witness :
    extractPdfText ([.ok "x", .ok "y", .ok "z"] ++ [.ok "w"]) =
      extractPdfText [.ok "x", .ok "y", .ok "z"] :=
  C9_pdf_three_pages_and_caught_failures.1 _ _ rfl

/-- C10: when the text assembled for classification — the combined window
text in the text path, or the extracted file text in the file path — is
empty or whitespace-only, the classification backend is never invoked and
the verdict is the full safe response. -/
theorem C10_blank_text_skips_classification (env : Env) (rest : List Json)
    (lastE sk mo : Json) (s : String) (resp : HttpResponse)
    (pages : List (Except PyErr String)) :
    (pyFirstIter lastE = .ok sk → pySubscript lastE sk = .ok mo →
      (jEqStr (msgTypeOf mo) "image" && isDict mo) = false →
      (jEqStr (msgTypeOf mo) "file" && isDict mo) = false →
      combinedLoop (rest ++ [lastE]) "" = .ok s → pyStripTruthy s = false →
      handle_webhook env (mkWindow (rest ++ [lastE])) = safeFullResponse
      ∧ webhookCalls env (mkWindow (rest ++ [lastE])) = [])
    ∧ (env.httpGet "http://f" = .ok resp → resp.status_code = 200 →
        env.pdfRead resp.content = .ok pages →
        pyStripTruthy (extractPdfText pages) = false →
      handle_webhook env winPdf = safeFullResponse
      ∧ webhookCalls env winPdf = [.httpGet "http://f", .pdfRead resp.content]) := by
  constructor
  · intro h1 h2 c1 c2 hcl hb
    have hr := webhookBody_route env rest lastE sk mo h1 h2
    simp [handle_webhook, webhookCalls, hr, c1, c2, textPath, classifyCombinedText,
      asEntryList, hcl, hb, bind_eq, pure_eq, M.bind, M.pure, liftE, verdictOf]
  · intro hg hst hpdf hb
    simp only [extractPdfText] at hb
    have hr := webhookBody_route env []
      (.obj [("u1", .obj [("type", .str "file"),
        ("data", .obj [("url", .str "http://f"), ("extension", .str "pdf")])])])
      (.str "u1")
      (.obj [("type", .str "file"),
        ("data", .obj [("url", .str "http://f"), ("extension", .str "pdf")])]) rfl rfl
    simp only [List.nil_append] at hr
    simp [handle_webhook, webhookCalls, winPdf, hr, filePath, extractFileStage,
      classifyFileText, dataOf, asObj, jlookup, msgTypeOf, jEqStr, isDict, jTruthy,
      asReqUrl, pyLower, pyLowerChar, callHttpGet, callPdfRead, hg, hst, hpdf, hb,
      strIn, hasSub, headMatches, bind_eq, pure_eq, M.bind, M.pure, liftE, verdictOf]

/-- Truncated slices never exceed the limit. -/
theorem pySliceTo_length_le (n : Nat) (s : String) : (pySliceTo n s).length ≤ n := by
  have h : (pySliceTo n s).length = (s.toList.take n).length := rfl
  rw [h, List.length_take]
  exact min_le_left n _

/-- The image path never submits text to the backend. -/
theorem imagePath_no_text_call (env : Env) (mo : Json) (s : String) :
    Call.analyzeText s ∉ (imagePath env mo).2 := by
  intro h
  unfold imagePath at h
  cases hm : asObj (dataOf mo) with
  | error e => simp [hm, bind_eq, M.bind, liftE] at h
  | ok dkvs =>
    simp only [hm, bind_eq, M.bind, liftE] at h
    cases hu : jlookup "url" dkvs with
    | none => simp [hu, M.pure] at h
    | some u =>
      simp only [hu] at h
      cases ht : jTruthy u with
      | false => simp [ht, M.pure] at h
      | true =>
        simp only [ht] at h
        cases hru : asReqUrl u with
        | error e => simp [hru, bind_eq, M.bind, liftE] at h
        | ok us =>
          simp only [hru, bind_eq, M.bind, liftE] at h
          cases hg : env.httpGet us with
          | error e => simp [hg, callHttpGet, bind_eq, M.bind] at h
          | ok resp =>
            simp only [hg, callHttpGet, bind_eq, M.bind] at h
            by_cases hst : resp.status_code = 200
            · simp only [hst, if_pos rfl, callAnalyzeImage, bind_eq, M.bind, M.pure] at h
              cases hai : env.analyze_image resp.content <;> simp [hai] at h
            · simp [hst, M.pure] at h

/-- Any text submitted by the file-text classification stage is the
1000-character slice of the extracted text. -/
theorem classifyFileText_call (env : Env) (t s : String)
    (h : Call.analyzeText s ∈ (classifyFileText env t).2) : s = pySliceTo 1000 t := by
  unfold classifyFileText at h
  by_cases hb : pyStripTruthy t = true
  · simp only [hb, if_pos rfl, callAnalyzeText, bind_eq, M.bind, M.pure] at h
    cases hai : env.analyze_text (pySliceTo 1000 t) <;> simp [hai] at h <;> exact h
  · simp [hb, M.pure] at h

/-- Any text submitted by the combined-text classification stage is the
1000-character slice of the combined text. -/
theorem classifyCombinedText_call (env : Env) (t s : String)
    (h : Call.analyzeText s ∈ (classifyCombinedText env t).2) : s = pySliceTo 1000 t := by
  unfold classifyCombinedText at h
  by_cases hb : pyStripTruthy t = true
  · simp only [hb, if_pos rfl, callAnalyzeText, bind_eq, M.bind, M.pure] at h
    cases hai : env.analyze_text (pySliceTo 1000 t) <;> simp [hai] at h <;> exact h
  · simp [hb, M.pure] at h

/-- The extraction stage makes no text-classification call. -/
theorem extractFileStage_no_text_call (env : Env) (resp : HttpResponse)
    (fext : String) (s : String) :
    Call.analyzeText s ∉ (extractFileStage env resp fext).2 := by
  intro h
  unfold extractFileStage at h
  by_cases h1 : strIn "pdf" fext = true
  · simp only [h1, if_pos rfl, callPdfRead, bind_eq, M.bind, M.pure] at h
    cases hp : env.pdfRead resp.content <;> simp [hp] at h
  · by_cases h2 : strIn "doc" fext = true
    · simp only [h1, h2, if_neg, if_pos rfl, callDocxRead, bind_eq, M.bind, M.pure] at h
      cases hp : env.docxRead resp.content <;> simp [hp] at h
    · by_cases h3 : strIn "txt" fext = true <;> simp [h1, h2, h3, M.pure] at h

/-- Every text the file path submits to the backend is a 1000-character
slice. -/
theorem filePath_text_call_truncated (env : Env) (mo : Json) (s : String)
    (h : Call.analyzeText s ∈ (filePath env mo).2) : ∃ t, s = pySliceTo 1000 t := by
  unfold filePath at h
  cases hm : asObj (dataOf mo) with
  | error e => simp [hm, bind_eq, M.bind, liftE] at h
  | ok dkvs =>
    simp only [hm, bind_eq, M.bind, liftE] at h
    cases hpl : pyLower ((jlookup "extension" dkvs).getD (.str "")) with
    | error e => simp [hpl, bind_eq, M.bind, liftE] at h
    | ok fext =>
      simp only [hpl, bind_eq, M.bind, liftE] at h
      cases hu : jlookup "url" dkvs with
      | none => simp [hu, M.pure] at h
      | some u =>
        simp only [hu] at h
        cases ht : jTruthy u with
        | false => simp [ht, M.pure] at h
        | true =>
          simp only [ht] at h
          cases hru : asReqUrl u with
          | error e => simp [hru, bind_eq, M.bind, liftE] at h
          | ok us =>
            simp only [hru, bind_eq, M.bind, liftE] at h
            cases hg : env.httpGet us with
            | error e => simp [hg, callHttpGet, bind_eq, M.bind] at h
            | ok resp =>
              simp only [hg, callHttpGet, bind_eq, M.bind] at h
              by_cases hst : resp.status_code = 200
              · simp only [hst, if_pos rfl] at h
                cases hx : extractFileStage env resp fext with
                | mk r l =>
                  rw [hx] at h
                  have hl : Call.analyzeText s ∉ l := by
                    intro hm2
                    refine extractFileStage_no_text_call env resp fext s ?_
                    rw [hx]
                    exact hm2
                  cases r with
                  | error e => simp [hl] at h
                  | ok t =>
                    by_cases hcl : Call.analyzeText s ∈ (classifyFileText env t).2
                    · exact ⟨t, classifyFileText_call env t s hcl⟩
                    · simp [hl, hcl] at h
              · simp [hst, M.pure] at h

/-- Every text the text path submits to the backend is a 1000-character
slice. -/
theorem textPath_text_call_truncated (env : Env) (cl : Json) (s : String)
    (h : Call.analyzeText s ∈ (textPath env cl).2) : ∃ t, s = pySliceTo 1000 t := by
  unfold textPath at h
  cases he : asEntryList cl with
  | error e => simp [he, bind_eq, M.bind, liftE] at h
  | ok entries =>
    simp only [he, bind_eq, M.bind, liftE] at h
    cases hc : combinedLoop entries "" with
    | error e => simp [hc, bind_eq, M.bind, liftE] at h
    | ok ct =>
      simp only [hc, bind_eq, M.bind, liftE, List.nil_append] at h
      exact ⟨ct, classifyCombinedText_call env ct s h⟩

/-- Every text the whole handler submits to the backend is a
1000-character slice. -/
theorem webhookBody_text_call_truncated (env : Env) (payload : Json) (s : String)
    (h : Call.analyzeText s ∈ (webhookBody env payload).2) : ∃ t, s = pySliceTo 1000 t := by
  unfold webhookBody at h
  cases hm : asObj payload with
  | error e => simp [hm, bind_eq, M.bind, liftE] at h
  | ok pkvs =>
    simp only [hm, bind_eq, M.bind, liftE] at h
    by_cases htr : jTruthy ((jlookup "contextMessages" pkvs).getD (.arr [])) = true
    · simp only [htr, if_pos rfl] at h
      cases hl : pySubscript ((jlookup "contextMessages" pkvs).getD (.arr [])) (.num (-1)) with
      | error e => simp [hl, bind_eq, M.bind, liftE] at h
      | ok lastE =>
        simp only [hl, bind_eq, M.bind, liftE] at h
        cases hs1 : pyFirstIter lastE with
        | error e => simp [hs1, bind_eq, M.bind, liftE] at h
        | ok sk =>
          simp only [hs1, bind_eq, M.bind, liftE] at h
          cases hs2 : pySubscript lastE sk with
          | error e => simp [hs2, bind_eq, M.bind, liftE] at h
          | ok mo =>
            simp only [hs2, bind_eq, M.bind, liftE, List.nil_append, ite_true] at h
            by_cases c1 : (jEqStr (msgTypeOf mo) "image" && isDict mo) = true
            · rw [if_pos c1] at h
              cases hi : imagePath env mo with
              | mk r l =>
                rw [hi] at h
                have hl : Call.analyzeText s ∈ (imagePath env mo).2 := by
                  rw [hi]
                  cases r <;> simpa [M.pure] using h
                exact absurd hl (imagePath_no_text_call env mo s)
            · rw [if_neg c1] at h
              by_cases c2 : (jEqStr (msgTypeOf mo) "file" && isDict mo) = true
              · rw [if_pos c2] at h
                cases hi : filePath env mo with
                | mk r l =>
                  rw [hi] at h
                  have hl : Call.analyzeText s ∈ (filePath env mo).2 := by
                    rw [hi]
                    cases r <;> simpa [M.pure] using h
                  exact filePath_text_call_truncated env mo s hl
              · rw [if_neg c2] at h
                cases hi : textPath env ((jlookup "contextMessages" pkvs).getD (.arr [])) with
                | mk r l =>
                  rw [hi] at h
                  have hl : Call.analyzeText s ∈
                      (textPath env ((jlookup "contextMessages" pkvs).getD (.arr []))).2 := by
                    rw [hi]
                    cases r <;> simpa [M.pure] using h
                  exact textPath_text_call_truncated env _ s hl
    · simp [htr, M.pure] at h

/-- C8: every text submitted to the classification backend is first
truncated to the 1000-character limit — text of length at most 1000 is
submitted unchanged, text of length 1001 is cut to exactly its first 1000
characters, and every text-classification call the handler makes, on any
request and in any environment, carries at most 1000 characters. -/
theorem C8_truncation_before_submission :
    (∀ s : String, s.length ≤ 1000 → pySliceTo 1000 s = s)
    ∧ (∀ s : String, s.length = 1001 →
        (pySliceTo 1000 s).length = 1000
        ∧ (pySliceTo 1000 s).toList = s.toList.take 1000)
    ∧ (∀ (env : Env) (payload : Json) (s : String),
        Call.analyzeText s ∈ webhookCalls env payload → s.length ≤ 1000) := by
  refine ⟨fun s h => ?_, fun s h => ⟨?_, rfl⟩, fun env payload s h => ?_⟩
  · have h' : s.toList.length ≤ 1000 := h
    show String.mk (s.toList.take 1000) = s
    rw [List.take_of_length_le h']
    cases s
    rfl
  · have hx : (pySliceTo 1000 s).length = (s.toList.take 1000).length := rfl
    have hs : s.toList.length = 1001 := h
    rw [hx, List.length_take, hs]
    decide
  · rcases webhookBody_text_call_truncated env payload s h with ⟨t, rfl⟩
    exact pySliceTo_length_le 1000 t

/-- C8 witness: the boundary cases and a concrete submitted text. -/
theorem C8_truncation_before_submission_witness :
    pySliceTo 1000 "abc" = "abc"
    ∧ (pySliceTo 1000 (String.mk (List.replicate 1001 'a'))).length = 1000
    ∧ ("hello. " : String).length ≤ 1000 :=
  ⟨C8_truncation_before_submission.1 "abc" (by decide),
   (C8_truncation_before_submission.2.1 (String.mk (List.replicate 1001 'a'))
      (by show (List.replicate 1001 'a').length = 1001
          exact List.length_replicate 1001 'a')).1,
   C8_truncation_before_submission.2.2 (envConst []) winText "hello. " (by decide)⟩

/-- C10 witness: a window whose only payload contributes nothing (empty
combined text), and a PDF whose sole page is whitespace. -/
theorem C10_blank_text_skips_classification_witness :
    (handle_webhook (envConst []) (mkWindow [.obj [("u1", .obj [("type", .str "sticker")])]]) =
        safeFullResponse
      ∧ webhookCalls (envConst [])
          (mkWindow [.obj [("u1", .obj [("type", .str "sticker")])]]) = [])
    ∧ (handle_webhook (envPdfOf [.ok " "]) winPdf = safeFullResponse
      ∧ webhookCalls (envPdfOf [.ok " "]) winPdf = [.httpGet "http://f", .pdfRead [9]]) :=
  ⟨(C10_blank_text_skips_classification (envConst []) [] (.obj [("u1",
      .obj [("type", .str "sticker")])]) (.str "u1") (.obj [("type", .str "sticker")])
      "" ⟨200, [], ""⟩ []).1 rfl rfl rfl rfl rfl rfl,
   (C10_blank_text_skips_classification (envPdfOf [.ok " "]) [] (.null) (.null) (.null)
      "" ⟨200, [9], "t"⟩ [.ok " "]).2 rfl rfl rfl rfl⟩

end CometModeration
